import Mathlib

/-!
Verification development for the flocker per-node convergence agent.

Shallow embedding of:
* `flocker/route/_iptables.py` — the iptables-backed proxy controller
  (`parse_iptables_options`, `get_flocker_rules`, `enumerate_proxies`,
  `HostNetwork.enumerate_proxies`, `HostNetwork.enumerate_used_ports`,
  and the kernel rules installed by `create_proxy_to`);
* `flocker/node/_deploy.py` — the planner
  (`Deployer.calculate_necessary_state_changes`, `find_volume_changes`)
  and the `SetProxies.run` action;
* `flocker/node/_config.py` — `marshal_configuration` and the
  compose-style (`FigConfiguration`) parser.

Byte strings are modelled as `List Char`; Python sets are modelled as
lists with membership-based (set) semantics; Python exceptions are
modelled with `Option`/`Except`.
-/

/-- Byte strings (Python `bytes` / `unicode`) modelled as lists of characters. -/
abbrev Bytes := List Char

/-- Shorthand to write a byte-string literal. -/
def bs (s : String) : Bytes := s.toList

/-- Model of Python `int()` applied to a nonnegative decimal byte string:
succeeds exactly on nonempty all-digit strings (ports in iptables output
are always of this shape), raising `ValueError` (`none`) otherwise. -/
def parseDecNat (s : Bytes) : Option Nat :=
  if s = [] || !s.all Char.isDigit then none
  else some (s.foldl (fun acc c => acc * 10 + (c.toNat - '0'.toNat)) 0)

/-- One dotted-quad component: nonempty, all digits, value at most 255. -/
def ipv4Component (s : Bytes) : Bool :=
  match parseDecNat s with
  | some n => n ≤ 255
  | none => false

/-- Model of the external `ipaddr.IPAddress` constructor restricted to
IPv4 dotted-quad strings: returns the address for a valid dotted quad and
models `ValueError` by `none` otherwise. -/
def ipAddress? (s : Bytes) : Option Bytes :=
  let parts := s.splitOn '.'
  if parts.length = 4 && parts.all ipv4Component then some s else none

/-- Model of Python `list.index`: index of the first occurrence, `none`
for the `ValueError` raised when the element is absent. -/
def listIndex? [DecidableEq α] : List α → α → Option Nat
  | [], _ => none
  | a :: as, x => if a = x then some 0 else (listIndex? as x).map (· + 1)

/-- `argv[argv.index(flag) + 1]` with both the `ValueError` of a missing
flag and the `IndexError` of a flag in last position modelled by `none`. -/
def getAfter (argv : List Bytes) (flag : Bytes) : Option Bytes :=
  match listIndex? argv flag with
  | none => none
  | some i => argv.get? (i + 1)

/-- `FLOCKER_COMMENT_MARKER` from `flocker/route/_iptables.py`. -/
def FLOCKER_COMMENT_MARKER : Bytes := bs "flocker "

/-- `RuleOptions` from `flocker/route/_iptables.py`: the `comment`,
`destination_port` and `to_destination` options of one parsed rule, each
`None` when not found. -/
structure RuleOptions where
  comment : Option Bytes
  destination_port : Option Nat
  to_destination : Option Bytes
deriving DecidableEq, Repr

/-- `parse_iptables_options` from `flocker/route/_iptables.py`: looks up
`--dport`, then `--to-destination`, then (last) `--comment` in one line of
`iptables-save` output; the first failing lookup or conversion aborts the
`try` block, keeping the values assigned so far. -/
def parse_iptables_options (argv : List Bytes) : RuleOptions :=
  match getAfter argv (bs "--dport") with
  | none => ⟨none, none, none⟩
  | some dpTok =>
    match parseDecNat dpTok with
    | none => ⟨none, none, none⟩
    | some dp =>
      match getAfter argv (bs "--to-destination") with
      | none => ⟨none, some dp, none⟩
      | some tdTok =>
        match ipAddress? tdTok with
        | none => ⟨none, some dp, none⟩
        | some td =>
          match getAfter argv (bs "--comment") with
          | none => ⟨none, some dp, some td⟩
          | some c => ⟨some c, some dp, some td⟩

/-- A chain-description line of the NAT table (starts with `:`), skipped
by `get_flocker_rules`.  Lines are modelled already token-split. -/
def chainHeader (line : List Bytes) : Bool :=
  match line.head? with
  | some tok => tok.head? = some ':'
  | none => false

/-- `get_flocker_rules` from `flocker/route/_iptables.py`: parse every
non-`:` line of the NAT table and keep the rules whose comment is present
and begins with the flocker marker. -/
def get_flocker_rules (lines : List (List Bytes)) : List RuleOptions :=
  ((lines.filter (fun l => !chainHeader l)).map parse_iptables_options).filter
    (fun o => match o.comment with
      | some c => FLOCKER_COMMENT_MARKER.isPrefixOf c
      | none => false)

/-- The `Proxy` values built by `enumerate_proxies`, with the `ip` and
`port` fields exactly as extracted from a `RuleOptions` (hence `Option`,
mirroring that the Python code would store `None` if parsing had left the
field unset). -/
structure ParsedProxy where
  ip : Option Bytes
  port : Option Nat
  «namespace» : Bytes
deriving DecidableEq, Repr

/-- `comment[len(FLOCKER_COMMENT_MARKER):]` for a comment known to be
present (the `none` branch is unreachable after `get_flocker_rules`). -/
def namespaceOfComment : Option Bytes → Bytes
  | some c => c.drop FLOCKER_COMMENT_MARKER.length
  | none => []

/-- Module-level `enumerate_proxies` from `flocker/route/_iptables.py`:
one `Proxy` per flocker rule, for all namespaces. -/
def enumerate_proxies (lines : List (List Bytes)) : List ParsedProxy :=
  (get_flocker_rules lines).map (fun r =>
    { ip := r.to_destination
      port := r.destination_port
      «namespace» := namespaceOfComment r.comment })

/-- `HostNetwork.enumerate_proxies`: the module-level enumeration
filtered down to the proxies whose namespace equals the controller's. -/
def HostNetwork_enumerate_proxies (ns : Bytes) (lines : List (List Bytes)) :
    List ParsedProxy :=
  (enumerate_proxies lines).filter (fun p => ns == p.«namespace»)

/-- The PREROUTING DNAT rule appended by `create_proxy_to(logger, ip,
port, tag)`, rendered as an `iptables-save` token line (the rendering
follows the sample lines quoted in the source comment of
`parse_iptables_options`).  `ip` and `port` stand for the already-encoded
`unicode(ip)`/`unicode(port)` byte strings; the comment token is
`FLOCKER_COMMENT_MARKER + tag`. -/
def preroutingRule (ip port tag : Bytes) : List Bytes :=
  [bs "-A", bs "PREROUTING", bs "-p", bs "tcp", bs "-m", bs "tcp",
   bs "--dport", port, bs "-m", bs "addrtype", bs "--dst-type", bs "LOCAL",
   bs "-m", bs "comment", bs "--comment", FLOCKER_COMMENT_MARKER ++ tag,
   bs "-j", bs "DNAT", bs "--to-destination", ip]

/-- The one MASQUERADE rule appended to POSTROUTING by `create_proxy_to`. -/
def postroutingRule (port : Bytes) : List Bytes :=
  [bs "-A", bs "POSTROUTING", bs "-p", bs "tcp", bs "-m", bs "tcp",
   bs "--dport", port, bs "-j", bs "MASQUERADE"]

/-- The DNAT rule appended to OUTPUT by `create_proxy_to` (no comment). -/
def outputRule (ip port : Bytes) : List Bytes :=
  [bs "-A", bs "OUTPUT", bs "-p", bs "tcp", bs "-m", bs "tcp",
   bs "--dport", port, bs "-m", bs "addrtype", bs "--dst-type", bs "LOCAL",
   bs "-j", bs "DNAT", bs "--to-destination", ip]

/-- All three NAT rules appended by one `create_proxy_to(logger, ip, port, tag)`. -/
def createProxyRules (ip port tag : Bytes) : List (List Bytes) :=
  [preroutingRule ip port tag, postroutingRule port, outputRule ip port]

/-- `HostNetwork.enumerate_used_ports`: the union (as a set-list) of the
locally bound TCP ports and the ports of the proxies returned by
`self.enumerate_proxies()` — i.e. only the proxies of the controller's
own namespace. -/
def HostNetwork_enumerate_used_ports (ns : Bytes) (listening : List Nat)
    (lines : List (List Bytes)) : List Nat :=
  listening ++ (HostNetwork_enumerate_proxies ns lines).filterMap (·.port)

/-! ### Lemmas about the iptables embedding -/

lemma marker_append_ne (A t : Bytes) (ht : t.head? ≠ some 'f') :
    FLOCKER_COMMENT_MARKER ++ A ≠ t := by
  intro h
  have hhead : (FLOCKER_COMMENT_MARKER ++ A).head? = some 'f' := rfl
  rw [h] at hhead
  exact ht hhead

lemma parse_preroutingRule_none (ip port tag : Bytes) (hdp : parseDecNat port = none) :
    parse_iptables_options (preroutingRule ip port tag) = ⟨none, none, none⟩ := by
  unfold parse_iptables_options
  rw [show getAfter (preroutingRule ip port tag) (bs "--dport") = some port from rfl]
  simp [hdp]

lemma parse_preroutingRule_noip (ip port tag : Bytes) (dp : Nat)
    (hdp : parseDecNat port = some dp) (hip : ipAddress? ip = none) :
    parse_iptables_options (preroutingRule ip port tag) = ⟨none, some dp, none⟩ := by
  have hne : port ≠ bs "--to-destination" := by
    intro h
    rw [h] at hdp
    rw [show parseDecNat (bs "--to-destination") = none from rfl] at hdp
    exact Option.noConfusion hdp
  have hm : FLOCKER_COMMENT_MARKER ++ tag ≠ bs "--to-destination" :=
    marker_append_ne tag _ (by decide)
  have h2 : getAfter (preroutingRule ip port tag) (bs "--to-destination") = some ip := by
    simp +decide [preroutingRule, getAfter, listIndex?, hne, hm]
  unfold parse_iptables_options
  rw [show getAfter (preroutingRule ip port tag) (bs "--dport") = some port from rfl]
  simp [hdp, h2, hip]

lemma parse_preroutingRule_ok (ip port tag : Bytes) (dp : Nat) (ipv : Bytes)
    (hdp : parseDecNat port = some dp) (hip : ipAddress? ip = some ipv) :
    parse_iptables_options (preroutingRule ip port tag) =
      ⟨some (FLOCKER_COMMENT_MARKER ++ tag), some dp, some ipv⟩ := by
  have hne : port ≠ bs "--to-destination" := by
    intro h
    rw [h] at hdp
    rw [show parseDecNat (bs "--to-destination") = none from rfl] at hdp
    exact Option.noConfusion hdp
  have hnec : port ≠ bs "--comment" := by
    intro h
    rw [h] at hdp
    rw [show parseDecNat (bs "--comment") = none from rfl] at hdp
    exact Option.noConfusion hdp
  have hm : FLOCKER_COMMENT_MARKER ++ tag ≠ bs "--to-destination" :=
    marker_append_ne tag _ (by decide)
  have h2 : getAfter (preroutingRule ip port tag) (bs "--to-destination") = some ip := by
    simp +decide [preroutingRule, getAfter, listIndex?, hne, hm]
  have h3 : getAfter (preroutingRule ip port tag) (bs "--comment") =
      some (FLOCKER_COMMENT_MARKER ++ tag) := by
    simp +decide [preroutingRule, getAfter, listIndex?, hnec]
  unfold parse_iptables_options
  rw [show getAfter (preroutingRule ip port tag) (bs "--dport") = some port from rfl]
  simp [hdp, h2, hip, h3]

lemma parse_postroutingRule_comment (port : Bytes) :
    (parse_iptables_options (postroutingRule port)).comment = none := by
  cases hdp : parseDecNat port with
  | none =>
    unfold parse_iptables_options
    rw [show getAfter (postroutingRule port) (bs "--dport") = some port from rfl]
    simp [hdp]
  | some dp =>
    have hne : port ≠ bs "--to-destination" := by
      intro h
      rw [h] at hdp
      rw [show parseDecNat (bs "--to-destination") = none from rfl] at hdp
      exact Option.noConfusion hdp
    have h2 : getAfter (postroutingRule port) (bs "--to-destination") = none := by
      simp +decide [postroutingRule, getAfter, listIndex?, hne]
    unfold parse_iptables_options
    rw [show getAfter (postroutingRule port) (bs "--dport") = some port from rfl]
    simp [hdp, h2]

lemma parse_outputRule_comment (ip port : Bytes) :
    (parse_iptables_options (outputRule ip port)).comment = none := by
  cases hdp : parseDecNat port with
  | none =>
    unfold parse_iptables_options
    rw [show getAfter (outputRule ip port) (bs "--dport") = some port from rfl]
    simp [hdp]
  | some dp =>
    have hne : port ≠ bs "--to-destination" := by
      intro h
      rw [h] at hdp
      rw [show parseDecNat (bs "--to-destination") = none from rfl] at hdp
      exact Option.noConfusion hdp
    have h2 : getAfter (outputRule ip port) (bs "--to-destination") = some ip := by
      simp +decide [outputRule, getAfter, listIndex?, hne]
    cases hip : ipAddress? ip with
    | none =>
      unfold parse_iptables_options
      rw [show getAfter (outputRule ip port) (bs "--dport") = some port from rfl]
      simp [hdp, h2, hip]
    | some ipv =>
      have hnec : port ≠ bs "--comment" := by
        intro h
        rw [h] at hdp
        rw [show parseDecNat (bs "--comment") = none from rfl] at hdp
        exact Option.noConfusion hdp
      have hipc : ip ≠ bs "--comment" := by
        intro h
        rw [h] at hip
        rw [show ipAddress? (bs "--comment") = none from rfl] at hip
        exact Option.noConfusion hip
      have h3 : getAfter (outputRule ip port) (bs "--comment") = none := by
        simp +decide [outputRule, getAfter, listIndex?, hnec, hipc]
      unfold parse_iptables_options
      rw [show getAfter (outputRule ip port) (bs "--dport") = some port from rfl]
      simp [hdp, h2, hip, h3]

lemma enumerate_proxies_append (l₁ l₂ : List (List Bytes)) :
    enumerate_proxies (l₁ ++ l₂) = enumerate_proxies l₁ ++ enumerate_proxies l₂ := by
  simp [enumerate_proxies, get_flocker_rules, List.filter_append, List.map_append]

lemma hostEnum_append (ns : Bytes) (l₁ l₂ : List (List Bytes)) :
    HostNetwork_enumerate_proxies ns (l₁ ++ l₂) =
      HostNetwork_enumerate_proxies ns l₁ ++ HostNetwork_enumerate_proxies ns l₂ := by
  simp [HostNetwork_enumerate_proxies, enumerate_proxies_append, List.filter_append]

/-- Every proxy parsed back out of the three rules installed by
`create_proxy_to` carries exactly the namespace tag that was installed. -/
lemma enumerate_createProxyRules_namespace (ip port tag : Bytes) (p : ParsedProxy)
    (hp : p ∈ enumerate_proxies (createProxyRules ip port tag)) : p.«namespace» = tag := by
  have hchain1 : chainHeader (preroutingRule ip port tag) = false := rfl
  have hchain2 : chainHeader (postroutingRule port) = false := rfl
  have hchain3 : chainHeader (outputRule ip port) = false := rfl
  unfold enumerate_proxies get_flocker_rules createProxyRules at hp
  rw [List.mem_map] at hp
  obtain ⟨r, hr, rfl⟩ := hp
  rw [List.mem_filter] at hr
  obtain ⟨hr1, hr2⟩ := hr
  simp only [List.filter_cons, hchain1, hchain2, hchain3, Bool.not_false, if_pos,
    List.filter_nil, List.map_cons, List.map_nil, List.mem_cons, List.not_mem_nil,
    or_false] at hr1
  have hpost := parse_postroutingRule_comment port
  have hout := parse_outputRule_comment ip port
  rcases hr1 with h | h | h
  · cases hdp : parseDecNat port with
    | none =>
      rw [h, parse_preroutingRule_none ip port tag hdp] at hr2
      simp at hr2
    | some dp =>
      cases hip : ipAddress? ip with
      | none =>
        rw [h, parse_preroutingRule_noip ip port tag dp hdp hip] at hr2
        simp at hr2
      | some ipv =>
        rw [h, parse_preroutingRule_ok ip port tag dp ipv hdp hip]
        simp [namespaceOfComment, FLOCKER_COMMENT_MARKER]
  · rw [h] at hr2
    rw [hpost] at hr2
    simp at hr2
  · rw [h] at hr2
    rw [hout] at hr2
    simp at hr2

/-- A controller never sees the proxies another namespace installed. -/
lemma hostEnum_createProxyRules_other (ip port A B : Bytes) (hAB : A ≠ B) :
    HostNetwork_enumerate_proxies B (createProxyRules ip port A) = [] := by
  unfold HostNetwork_enumerate_proxies
  rw [List.filter_eq_nil_iff]
  intro p hp
  have := enumerate_createProxyRules_namespace ip port A p hp
  simp [this]
  exact fun h => hAB h.symm

lemma rule_options_comment_total (argv : List Bytes)
    (h : (parse_iptables_options argv).comment.isSome) :
    (parse_iptables_options argv).destination_port.isSome ∧
    (parse_iptables_options argv).to_destination.isSome := by
  revert h
  unfold parse_iptables_options
  repeat' split
  all_goals simp

lemma enumerate_proxies_fields_present (lines : List (List Bytes)) (p : ParsedProxy)
    (hp : p ∈ enumerate_proxies lines) : p.port.isSome ∧ p.ip.isSome := by
  unfold enumerate_proxies at hp
  rw [List.mem_map] at hp
  obtain ⟨r, hr, rfl⟩ := hp
  unfold get_flocker_rules at hr
  rw [List.mem_filter] at hr
  obtain ⟨hr1, hr2⟩ := hr
  rw [List.mem_map] at hr1
  obtain ⟨l, _, rfl⟩ := hr1
  have hc : (parse_iptables_options l).comment.isSome := by
    cases h : (parse_iptables_options l).comment <;> simp [h] at hr2 ⊢
  have := rule_options_comment_total l hc
  simpa using this

/-! ### Claim theorems on the proxy controller -/

/-- C8: For every kernel NAT state, every proxy returned by a
controller's `enumerate_proxies()` has a namespace equal to the
controller's own namespace; and installing a proxy under namespace `A`
leaves the enumeration of any controller with a distinct namespace `B`
unchanged, so a proxy installed by `A` is never returned on `B`. -/
theorem c8_proxy_namespace_isolation :
    (∀ (lines : List (List Bytes)) (ns : Bytes) (p : ParsedProxy),
      p ∈ HostNetwork_enumerate_proxies ns lines → p.«namespace» = ns)
    ∧ (∀ (base : List (List Bytes)) (A B ip port : Bytes), A ≠ B →
        HostNetwork_enumerate_proxies B (base ++ createProxyRules ip port A) =
          HostNetwork_enumerate_proxies B base) := by
  constructor
  · intro lines ns p hp
    unfold HostNetwork_enumerate_proxies at hp
    rw [List.mem_filter] at hp
    have := hp.2
    simp at this
    exact this.symm
  · intro base A B ip port hAB
    rw [hostEnum_append, hostEnum_createProxyRules_other ip port A B hAB, List.append_nil]

/-- A kernel state holding one proxy installed under namespace `B`. -/
def c8Lines : List (List Bytes) := createProxyRules (bs "10.1.2.3") (bs "4567") (bs "B")

/-- The proxy recovered from `c8Lines` by the controller for namespace `B`. -/
def c8Proxy : ParsedProxy := ⟨some (bs "10.1.2.3"), some 4567, bs "B"⟩

/-- Witness for C8 at a concrete kernel state and namespaces. -/
theorem c8_proxy_namespace_isolation_witness :
    c8Proxy.«namespace» = bs "B" ∧
    HostNetwork_enumerate_proxies (bs "B")
        ([] ++ createProxyRules (bs "10.0.0.1") (bs "80") (bs "A")) =
      HostNetwork_enumerate_proxies (bs "B") [] :=
  ⟨c8_proxy_namespace_isolation.1 c8Lines (bs "B") c8Proxy (by decide),
   c8_proxy_namespace_isolation.2 [] (bs "A") (bs "B") (bs "10.0.0.1") (bs "80")
     (by decide)⟩

/-- C10: If `parse_iptables_options` returns a `RuleOptions` with a
non-`None` comment, its destination port and destination address are
also non-`None`; consequently every proxy built by `enumerate_proxies`
(which selects rules by their comment) has a present port and address. -/
theorem c10_rule_options_invariant :
    (∀ argv : List Bytes, (parse_iptables_options argv).comment.isSome →
      (parse_iptables_options argv).destination_port.isSome ∧
      (parse_iptables_options argv).to_destination.isSome)
    ∧ (∀ (lines : List (List Bytes)) (p : ParsedProxy), p ∈ enumerate_proxies lines →
        p.port.isSome ∧ p.ip.isSome) :=
  ⟨rule_options_comment_total, enumerate_proxies_fields_present⟩

/-- The sample PREROUTING line quoted in the source of
`parse_iptables_options`. -/
def c10Argv : List Bytes :=
  [bs "-A", bs "PREROUTING", bs "-p", bs "tcp", bs "-m", bs "tcp",
   bs "--dport", bs "4567", bs "-m", bs "addrtype", bs "--dst-type", bs "LOCAL",
   bs "-m", bs "comment", bs "--comment", bs "flocker default",
   bs "-j", bs "DNAT", bs "--to-destination", bs "10.1.2.3"]

/-- The proxy parsed out of `c10Argv`. -/
def c10Proxy : ParsedProxy := ⟨some (bs "10.1.2.3"), some 4567, bs "default"⟩

/-- Witness for C10 at the sample rule line from the source comment. -/
theorem c10_rule_options_invariant_witness :
    ((parse_iptables_options c10Argv).destination_port.isSome ∧
      (parse_iptables_options c10Argv).to_destination.isSome)
    ∧ (c10Proxy.port.isSome ∧ c10Proxy.ip.isSome) :=
  ⟨c10_rule_options_invariant.1 c10Argv (by decide),
   c10_rule_options_invariant.2 [c10Argv] c10Proxy (by decide)⟩

/-- C1 (code behaviour at the failing input): `enumerate_used_ports`
filters proxies through the controller's own namespace, so with no local
TCP endpoints a controller with namespace `another_namespace` reports no
used port for a proxy on port 18173 installed under namespace `default`,
while the `default`-namespace controller reports it.  The repository's
own functional test
(`test_proxied_ports_used_different_namespace`) and the source TODO
comment require the port to be reported globally. -/
theorem c1_used_ports_namespace_filtered :
    HostNetwork_enumerate_used_ports (bs "another_namespace") []
        (createProxyRules (bs "10.0.0.3") (bs "18173") (bs "default")) = []
    ∧ HostNetwork_enumerate_used_ports (bs "default") []
        (createProxyRules (bs "10.0.0.3") (bs "18173") (bs "default")) = [18173] :=
  ⟨by decide, by decide⟩

/-! ### The deployment model (`flocker/node/_model.py` is not under `src/`;
these value types are modelled from the spec and from their uses in
`flocker/node/_deploy.py`) -/

/-- Modelled from the spec: `Port` of `flocker/node/_model.py` (not in
`src/`) — an in-container `internal_port` and a host-side
`external_port`. -/
structure Port where
  internal_port : Nat
  external_port : Nat
deriving DecidableEq, Repr

/-- Modelled from the spec: `Link` of `flocker/node/_model.py` (not in
`src/`) — `local_port`, `remote_port` and an `alias`. -/
structure Link where
  local_port : Nat
  remote_port : Nat
  «alias» : String
deriving DecidableEq, Repr

/-- Modelled from the spec: `DockerImage` of `flocker/node/_model.py`
(not in `src/`) — a repository and a tag. -/
structure DockerImage where
  repository : String
  tag : String
deriving DecidableEq, Repr

/-- Modelled from the spec: `AttachedVolume` of `flocker/node/_model.py`
(not in `src/`) — a volume `name` and a `mountpoint` (`none` models both
Python `None` and the unknown-mountpoint sentinel). -/
structure AttachedVolume where
  name : String
  mountpoint : Option String
deriving DecidableEq, Repr

/-- Modelled from the spec: `Application` of `flocker/node/_model.py`
(not in `src/`) — a named container declaration.  Set-valued fields are
lists with set semantics. -/
structure Application where
  name : String
  image : Option DockerImage := none
  ports : List Port := []
  links : List Link := []
  volume : Option AttachedVolume := none
  environment : Option (List (String × String)) := none
deriving DecidableEq, Repr

/-- Modelled from the spec: `Node` of `flocker/node/_model.py` (not in
`src/`) — a hostname and the applications assigned to it. -/
structure Node where
  hostname : String
  applications : List Application
deriving DecidableEq, Repr

/-- Modelled from the spec: `Deployment` of `flocker/node/_model.py`
(not in `src/`) — a set of nodes. -/
structure Deployment where
  nodes : List Node
deriving DecidableEq, Repr

/-- `NodeState` from `flocker/node/_deploy.py`: exactly the two
attributes declared there — `running` and `not_running` (note: no
`used_ports` attribute). -/
structure NodeState where
  running : List Application
  not_running : List Application
deriving DecidableEq, Repr

/-- Modelled from the spec: `Proxy` of `flocker/route/_model.py` (not in
`src/`) — a target `ip`, a target `port` and a `namespace` tag.  The
planner constructs proxies with `Proxy(ip=..., port=...)` only, which the
default field value mirrors. -/
structure Proxy where
  ip : String
  port : Nat
  «namespace» : String := ""
deriving DecidableEq, Repr

/-- Modelled from the spec: `VolumeHandoff` of `flocker/node/_model.py`
(not in `src/`) — a volume paired with the hostname it is handed to. -/
structure VolumeHandoff where
  volume : AttachedVolume
  hostname : String
deriving DecidableEq, Repr

/-- Modelled from the spec: `VolumeChanges` of `flocker/node/_model.py`
(not in `src/`) — the planner's `going` / `coming` / `creating` sets. -/
structure VolumeChanges where
  going : List VolumeHandoff
  coming : List AttachedVolume
  creating : List AttachedVolume
deriving DecidableEq, Repr

/-- The closed sum of `IStateChange` implementations defined in
`flocker/node/_deploy.py`: `Sequentially`, `InParallel`,
`StartApplication`, `StopApplication`, `CreateVolume`, `WaitForVolume`,
`HandoffVolume` and `SetProxies`.  (The file defines no `PushVolume`
variant, and `StartApplication` carries only the application.) -/
inductive StateChange where
  | Sequentially (changes : List StateChange)
  | InParallel (changes : List StateChange)
  | StartApplication (application : Application)
  | StopApplication (application : Application)
  | CreateVolume (volume : AttachedVolume)
  | WaitForVolume (volume : AttachedVolume)
  | HandoffVolume (volume : AttachedVolume) (hostname : String)
  | SetProxies (ports : List Proxy)
deriving Repr

/-! ### The planner (`flocker/node/_deploy.py`) -/

/-- Python set equality for set-valued lists: same members. -/
def sameSet [BEq α] (a b : List α) : Bool :=
  a.all (b.contains ·) && b.all (a.contains ·)

/-- The names of a collection of applications (`{app.name for app in ...}`). -/
def namesOf (apps : List Application) : List String := apps.map (·.name)

/-- Lookup in an association list built by a Python dict comprehension:
a duplicated key keeps the last value; a missing key yields the default
(`.get(key, default)`). -/
def dictGet (l : List (String × α)) (k : String) (dflt : α) : α :=
  match (l.filter (fun kv => kv.1 == k)).getLast? with
  | some kv => kv.2
  | none => dflt

/-- `{node.hostname: set(application.volume for application in
node.applications if application.volume) for node in state.nodes}` from
`find_volume_changes`. -/
def volumesByHost (d : Deployment) : List (String × List AttachedVolume) :=
  d.nodes.map (fun n => (n.hostname, n.applications.filterMap (·.volume)))

/-- `find_volume_changes` from `flocker/node/_deploy.py`: classify each
volume as going / coming / creating relative to `hostname`, comparing by
volume name only. -/
def find_volume_changes (hostname : String) (current_state desired_state : Deployment) :
    VolumeChanges :=
  let desired_volumes := volumesByHost desired_state
  let current_volumes := volumesByHost current_state
  let local_desired_volumes := dictGet desired_volumes hostname []
  let local_desired_volume_names := local_desired_volumes.map (·.name)
  let local_current_volume_names :=
    (dictGet current_volumes hostname []).map (·.name)
  let remote_current_volume_names :=
    (current_volumes.filter (fun kv => kv.1 != hostname)).flatMap
      (fun kv => kv.2.map (·.name))
  let going :=
    (desired_volumes.filter (fun kv => kv.1 != hostname)).flatMap
      (fun kv =>
        (kv.2.filter (fun v => local_current_volume_names.contains v.name)).map
          (fun v => VolumeHandoff.mk v kv.1))
  let coming_names :=
    local_desired_volume_names.filter (remote_current_volume_names.contains ·)
  let coming := local_desired_volumes.filter (fun v => coming_names.contains v.name)
  let creating_names :=
    local_desired_volume_names.filter
      (fun n => !(local_current_volume_names.contains n ||
                  remote_current_volume_names.contains n))
  let creating := local_desired_volumes.filter (fun v => creating_names.contains v.name)
  ⟨going, coming, creating⟩

/-- The `desired_node_applications` accumulated by the loop at the top of
`calculate_necessary_state_changes`: the applications of the (last) node
of `desired_state` whose hostname matches, else empty. -/
def desiredNodeApplications (desired_state : Deployment) (hostname : String) :
    List Application :=
  dictGet (desired_state.nodes.map (fun n => (n.hostname, n.applications))) hostname []

/-- The `desired_proxies` set accumulated by the same loop: one
`Proxy(ip=node.hostname, port=port.external_port)` per port of every
application on every non-local node. -/
def desiredProxiesFor (desired_state : Deployment) (hostname : String) : List Proxy :=
  (desired_state.nodes.filter (fun n => n.hostname != hostname)).flatMap
    (fun n => n.applications.flatMap
      (fun a => a.ports.map (fun p => { ip := n.hostname, port := p.external_port })))

/-- `not_running = {app.name for app in current_node_state.not_running}`. -/
def planNotRunningNames (observed : NodeState) : List String :=
  namesOf observed.not_running

/-- `start_names = desired_local_state.difference(current_state | not_running)`. -/
def planStartNames (desired_state : Deployment) (hostname : String)
    (observed : NodeState) : List String :=
  (namesOf (desiredNodeApplications desired_state hostname)).filter
    (fun n => !((namesOf observed.running).contains n ||
                (planNotRunningNames observed).contains n))

/-- `stop_names = {app.name for app in all_applications}.difference(desired_local_state)`. -/
def planStopNames (desired_state : Deployment) (hostname : String)
    (observed : NodeState) : List String :=
  (namesOf (observed.running ++ observed.not_running)).filter
    (fun n => !(namesOf (desiredNodeApplications desired_state hostname)).contains n)

/-- `start_containers`: a `StartApplication` for each desired application
whose name is in `start_names`. -/
def planStartContainers (desired_state : Deployment) (hostname : String)
    (observed : NodeState) : List StateChange :=
  ((desiredNodeApplications desired_state hostname).filter
    (fun a => (planStartNames desired_state hostname observed).contains a.name)).map
    StateChange.StartApplication

/-- `stop_containers`: a `StopApplication` for each observed application
whose name is in `stop_names`. -/
def planStopContainers (desired_state : Deployment) (hostname : String)
    (observed : NodeState) : List StateChange :=
  ((observed.running ++ observed.not_running).filter
    (fun a => (planStopNames desired_state hostname observed).contains a.name)).map
    StateChange.StopApplication

/-- `restart_containers`: a `Sequentially([StopApplication,
StartApplication])` for each desired application whose name is in
`not_running`. -/
def planRestartContainers (desired_state : Deployment) (hostname : String)
    (observed : NodeState) : List StateChange :=
  ((desiredNodeApplications desired_state hostname).filter
    (fun a => (planNotRunningNames observed).contains a.name)).map
    (fun a => StateChange.Sequentially
      [StateChange.StopApplication a, StateChange.StartApplication a])

/-- The list of phases appended by `calculate_necessary_state_changes`,
in source order: proxies, stop, handoff (going), wait (coming), create,
start/restart; each phase is appended only when non-empty.  The result of
`self.network.enumerate_proxies()` and of
`self.discover_node_configuration()` are passed in as `current_proxies`
and `observed`. -/
def calculatePhases (desired_state current_cluster_state : Deployment)
    (hostname : String) (current_proxies : List Proxy) (observed : NodeState) :
    List StateChange :=
  let desired_proxies := desiredProxiesFor desired_state hostname
  let proxyPhases :=
    if sameSet desired_proxies current_proxies then []
    else [StateChange.SetProxies desired_proxies]
  let start_containers := planStartContainers desired_state hostname observed
  let stop_containers := planStopContainers desired_state hostname observed
  let restart_containers := planRestartContainers desired_state hostname observed
  let volumes := find_volume_changes hostname current_cluster_state desired_state
  let stopPhases :=
    if stop_containers.isEmpty then []
    else [StateChange.InParallel stop_containers]
  let goingPhases :=
    if volumes.going.isEmpty then []
    else [StateChange.InParallel (volumes.going.map
      (fun handoff => StateChange.HandoffVolume handoff.volume handoff.hostname))]
  let comingPhases :=
    if volumes.coming.isEmpty then []
    else [StateChange.InParallel (volumes.coming.map StateChange.WaitForVolume)]
  let creatingPhases :=
    if volumes.creating.isEmpty then []
    else [StateChange.InParallel (volumes.creating.map StateChange.CreateVolume)]
  let start_restart := start_containers ++ restart_containers
  let startPhases :=
    if start_restart.isEmpty then []
    else [StateChange.InParallel start_restart]
  proxyPhases ++ stopPhases ++ goingPhases ++ comingPhases ++ creatingPhases ++
    startPhases

/-- `Deployer.calculate_necessary_state_changes`: the plan is a single
`Sequentially` of the phases. -/
def calculate_necessary_state_changes (desired_state current_cluster_state : Deployment)
    (hostname : String) (current_proxies : List Proxy) (observed : NodeState) :
    StateChange :=
  StateChange.Sequentially
    (calculatePhases desired_state current_cluster_state hostname current_proxies
      observed)

/-- The kernel mutations attempted by `SetProxies.run`. -/
inductive ProxyOp where
  | delete (proxy : Proxy)
  | create (ip : String) (port : Nat)
deriving DecidableEq, Repr

/-- The operation trace of `SetProxies.run(deployer)`: first
`delete_proxy` for every proxy in
`deployer.network.enumerate_proxies()`, then `create_proxy_to(proxy.ip,
proxy.port)` for every proxy in `self.ports` (failures are collected,
not short-circuited, so every operation is attempted). -/
def SetProxies_run (ports enumerated : List Proxy) : List ProxyOp :=
  enumerated.map ProxyOp.delete ++ ports.map (fun proxy => ProxyOp.create proxy.ip proxy.port)

/-! ### The volume-swap scenario (spec S5) -/

/-- Desired volume `A` (on `n2`) in the swap scenario. -/
def volA_d : AttachedVolume := ⟨"A", some "/A"⟩

/-- Desired volume `B` (on `n1`) in the swap scenario. -/
def volB_d : AttachedVolume := ⟨"B", some "/B"⟩

/-- Application owning volume `A`, as configured. -/
def appA_desired : Application := { name := "A", volume := some volA_d }

/-- Application owning volume `B`, as configured. -/
def appB_desired : Application := { name := "B", volume := some volB_d }

/-- Application `A` as discovered locally (mountpoint unknown). -/
def appA_observed : Application := { name := "A", volume := some ⟨"A", none⟩ }

/-- Application `B` as known from the peer in the cluster state. -/
def appB_current : Application := { name := "B", volume := some ⟨"B", none⟩ }

/-- Desired deployment of the swap: `n1` gets `B`, `n2` gets `A`. -/
def swapDesired : Deployment :=
  ⟨[⟨"n1", [appB_desired]⟩, ⟨"n2", [appA_desired]⟩]⟩

/-- Current cluster state of the swap: `n1` owns `A`, `n2` owns `B`. -/
def swapCurrent : Deployment :=
  ⟨[⟨"n1", [appA_observed]⟩, ⟨"n2", [appB_current]⟩]⟩

/-- Observed local state on `n1`: `A` is running. -/
def swapObserved : NodeState := ⟨[appA_observed], []⟩

/-- C2 (code behaviour at the failing input): on the volume-swap input
the planner emits exactly stop `A`, handoff `A` to `n2`, wait for `B`,
start `B` — four phases with no `PushVolume` phase (the source defines no
`PushVolume` action at all), contrary to the claimed five-action plan
that begins with a push.  The repository's own tests
(`test_volume_handoff`, `test_handoff_precedes_wait`) import `PushVolume`
from `flocker.node._deploy` and expect the push phase. -/
theorem c2_swap_plan_code_behavior :
    calculate_necessary_state_changes swapDesired swapCurrent "n1" [] swapObserved =
      StateChange.Sequentially
        [StateChange.InParallel [StateChange.StopApplication appA_observed],
         StateChange.InParallel [StateChange.HandoffVolume volA_d "n2"],
         StateChange.InParallel [StateChange.WaitForVolume volB_d],
         StateChange.InParallel [StateChange.StartApplication appB_desired]] := by rfl

/-! ### Claim theorems on the planner -/

/-- A `HandoffVolume` action occurs (at any nesting depth) in a change. -/
inductive ContainsHandoff : StateChange → Prop
  | handoff (volume : AttachedVolume) (hostname : String) :
      ContainsHandoff (.HandoffVolume volume hostname)
  | seq {c : StateChange} {cs : List StateChange} :
      c ∈ cs → ContainsHandoff c → ContainsHandoff (.Sequentially cs)
  | par {c : StateChange} {cs : List StateChange} :
      c ∈ cs → ContainsHandoff c → ContainsHandoff (.InParallel cs)

/-- A `WaitForVolume` action occurs (at any nesting depth) in a change. -/
inductive ContainsWait : StateChange → Prop
  | wait (volume : AttachedVolume) : ContainsWait (.WaitForVolume volume)
  | seq {c : StateChange} {cs : List StateChange} :
      c ∈ cs → ContainsWait c → ContainsWait (.Sequentially cs)
  | par {c : StateChange} {cs : List StateChange} :
      c ∈ cs → ContainsWait c → ContainsWait (.InParallel cs)

lemma handoff_before_wait_of_split (l₁ l₂ : List StateChange)
    (h₁ : ∀ x ∈ l₁, ¬ ContainsWait x) (h₂ : ∀ x ∈ l₂, ¬ ContainsHandoff x)
    (i j : Nat) (hi : i < (l₁ ++ l₂).length) (hj : j < (l₁ ++ l₂).length)
    (hh : ContainsHandoff ((l₁ ++ l₂).get ⟨i, hi⟩))
    (hw : ContainsWait ((l₁ ++ l₂).get ⟨j, hj⟩)) : i < j := by
  have hi' : i < l₁.length := by
    by_contra hcon
    push_neg at hcon
    rw [List.get_eq_getElem, List.getElem_append_right hcon] at hh
    exact h₂ _ (List.getElem_mem _) hh
  have hj' : l₁.length ≤ j := by
    by_contra hcon
    push_neg at hcon
    rw [List.get_eq_getElem, List.getElem_append_left hcon] at hw
    exact h₁ _ (List.getElem_mem _) hw
  omega

lemma no_wait_in_early_phase (desired current : Deployment) (hostname : String)
    (current_proxies : List Proxy) (observed : NodeState) :
    ∀ x ∈ (if sameSet (desiredProxiesFor desired hostname) current_proxies then []
           else [StateChange.SetProxies (desiredProxiesFor desired hostname)]) ++
          ((if (planStopContainers desired hostname observed).isEmpty then []
            else [StateChange.InParallel (planStopContainers desired hostname observed)]) ++
           (if (find_volume_changes hostname current desired).going.isEmpty then []
            else [StateChange.InParallel
              ((find_volume_changes hostname current desired).going.map
                (fun handoff => StateChange.HandoffVolume handoff.volume handoff.hostname))])),
      ¬ ContainsWait x := by
  intro x hx hw
  simp only [List.mem_append] at hx
  rcases hx with hx | hx | hx
  · split at hx
    · exact absurd hx (List.not_mem_nil x)
    · rw [List.mem_singleton] at hx
      subst hx
      cases hw
  · split at hx
    · exact absurd hx (List.not_mem_nil x)
    · rw [List.mem_singleton] at hx
      subst hx
      cases hw with
      | par hc hcw =>
        rw [planStopContainers, List.mem_map] at hc
        obtain ⟨a, _, rfl⟩ := hc
        cases hcw
  · split at hx
    · exact absurd hx (List.not_mem_nil x)
    · rw [List.mem_singleton] at hx
      subst hx
      cases hw with
      | par hc hcw =>
        rw [List.mem_map] at hc
        obtain ⟨a, _, rfl⟩ := hc
        cases hcw

lemma no_handoff_in_late_phase (desired current : Deployment) (hostname : String)
    (observed : NodeState) :
    ∀ x ∈ (if (find_volume_changes hostname current desired).coming.isEmpty then []
           else [StateChange.InParallel
             ((find_volume_changes hostname current desired).coming.map
               StateChange.WaitForVolume)]) ++
          ((if (find_volume_changes hostname current desired).creating.isEmpty then []
            else [StateChange.InParallel
              ((find_volume_changes hostname current desired).creating.map
                StateChange.CreateVolume)]) ++
           (if (planStartContainers desired hostname observed ++
                planRestartContainers desired hostname observed).isEmpty then []
            else [StateChange.InParallel
              (planStartContainers desired hostname observed ++
               planRestartContainers desired hostname observed)])),
      ¬ ContainsHandoff x := by
  intro x hx hh
  simp only [List.mem_append] at hx
  rcases hx with hx | hx | hx
  · split at hx
    · exact absurd hx (List.not_mem_nil x)
    · rw [List.mem_singleton] at hx
      subst hx
      cases hh with
      | par hc hch =>
        rw [List.mem_map] at hc
        obtain ⟨a, _, rfl⟩ := hc
        cases hch
  · split at hx
    · exact absurd hx (List.not_mem_nil x)
    · rw [List.mem_singleton] at hx
      subst hx
      cases hh with
      | par hc hch =>
        rw [List.mem_map] at hc
        obtain ⟨a, _, rfl⟩ := hc
        cases hch
  · split at hx
    · exact absurd hx (List.not_mem_nil x)
    · rw [List.mem_singleton] at hx
      subst hx
      cases hh with
      | par hc hch =>
        rw [List.mem_append] at hc
        rcases hc with hc | hc
        · rw [planStartContainers, List.mem_map] at hc
          obtain ⟨a, _, rfl⟩ := hc
          cases hch
        · rw [planRestartContainers, List.mem_map] at hc
          obtain ⟨a, _, rfl⟩ := hc
          cases hch with
          | seq hd hdh =>
            rw [List.mem_cons, List.mem_singleton] at hd
            rcases hd with rfl | rfl
            · cases hdh
            · cases hdh

lemma handoff_before_wait_of_eq_split (l l₁ l₂ : List StateChange)
    (hl : l = l₁ ++ l₂)
    (h₁ : ∀ x ∈ l₁, ¬ ContainsWait x) (h₂ : ∀ x ∈ l₂, ¬ ContainsHandoff x)
    (i j : Nat) (hi : i < l.length) (hj : j < l.length)
    (hh : ContainsHandoff (l.get ⟨i, hi⟩))
    (hw : ContainsWait (l.get ⟨j, hj⟩)) : i < j := by
  subst hl
  exact handoff_before_wait_of_split l₁ l₂ h₁ h₂ i j hi hj hh hw

/-- C3: In every plan computed by the planner, a phase containing a
`HandoffVolume` action comes strictly before any phase containing a
`WaitForVolume` action. -/
theorem c3_handoff_precedes_wait (desired current : Deployment) (hostname : String)
    (current_proxies : List Proxy) (observed : NodeState) (i j : Nat)
    (hi : i < (calculatePhases desired current hostname current_proxies observed).length)
    (hj : j < (calculatePhases desired current hostname current_proxies observed).length)
    (hh : ContainsHandoff
      ((calculatePhases desired current hostname current_proxies observed).get ⟨i, hi⟩))
    (hw : ContainsWait
      ((calculatePhases desired current hostname current_proxies observed).get ⟨j, hj⟩)) :
    i < j := by
  refine handoff_before_wait_of_eq_split _ _ _ ?_
    (no_wait_in_early_phase desired current hostname current_proxies observed)
    (no_handoff_in_late_phase desired current hostname observed) i j hi hj hh hw
  simp only [calculatePhases]
  simp only [List.append_assoc]

/-- Witness for C3 at the volume-swap scenario: the handoff phase is at
index 1 and the wait phase at index 2 of the computed plan. -/
theorem c3_handoff_precedes_wait_witness : (1 : Nat) < 2 :=
  c3_handoff_precedes_wait swapDesired swapCurrent "n1" [] swapObserved 1 2
    (by decide) (by decide)
    (show ContainsHandoff (StateChange.InParallel [StateChange.HandoffVolume volA_d "n2"]) from
      ContainsHandoff.par (List.mem_singleton.mpr rfl) (ContainsHandoff.handoff volA_d "n2"))
    (show ContainsWait (StateChange.InParallel [StateChange.WaitForVolume volB_d]) from
      ContainsWait.par (List.mem_singleton.mpr rfl) (ContainsWait.wait volB_d))

lemma sameSet_mem_left [BEq α] [LawfulBEq α] {a b : List α} (h : sameSet a b = true)
    {x : α} (hx : x ∈ a) : x ∈ b := by
  unfold sameSet at h
  rw [Bool.and_eq_true, List.all_eq_true, List.all_eq_true] at h
  have := h.1 x hx
  rwa [List.elem_iff] at this

lemma sameSet_mem_right [BEq α] [LawfulBEq α] {a b : List α} (h : sameSet a b = true)
    {x : α} (hx : x ∈ b) : x ∈ a := by
  unfold sameSet at h
  rw [Bool.and_eq_true, List.all_eq_true, List.all_eq_true] at h
  have := h.2 x hx
  rwa [List.elem_iff] at this

/-- C5: When the observed local state already matches the desired state
for this host (the running application names are exactly the desired
local names, nothing is stopped, the volume diff is empty and the
desired proxy set equals the enumerated one), the planner returns an
empty `Sequentially`. -/
theorem c5_planner_idempotent (desired current : Deployment) (hostname : String)
    (current_proxies : List Proxy) (observed : NodeState)
    (hNotRunning : observed.not_running = [])
    (hSame : sameSet (namesOf observed.running)
      (namesOf (desiredNodeApplications desired hostname)) = true)
    (hVolumes : find_volume_changes hostname current desired = ⟨[], [], []⟩)
    (hProxies : sameSet (desiredProxiesFor desired hostname) current_proxies = true) :
    calculate_necessary_state_changes desired current hostname current_proxies observed =
      StateChange.Sequentially [] := by
  have hStopNames : planStopNames desired hostname observed = [] := by
    rw [planStopNames, hNotRunning, List.append_nil, List.filter_eq_nil_iff]
    intro n hn
    have hmem := sameSet_mem_left hSame hn
    simp [List.elem_iff, hmem]
  have hStop : planStopContainers desired hostname observed = [] := by
    rw [planStopContainers, hStopNames]
    simp
  have hStartNames : planStartNames desired hostname observed = [] := by
    rw [planStartNames, List.filter_eq_nil_iff]
    intro n hn
    have hmem := sameSet_mem_right hSame hn
    simp [List.elem_iff, hmem]
  have hStart : planStartContainers desired hostname observed = [] := by
    rw [planStartContainers, hStartNames]
    simp
  have hRestart : planRestartContainers desired hostname observed = [] := by
    rw [planRestartContainers, planNotRunningNames, hNotRunning]
    simp [namesOf]
  rw [calculate_necessary_state_changes]
  rw [calculatePhases, hVolumes, hStop, hStart, hRestart]
  simp [hProxies]

/-- A one-application deployment already realised on `n1`. -/
def c5App : Application := { name := "mysql" }

/-- The deployment for the C5 witness. -/
def c5Desired : Deployment := ⟨[⟨"n1", [c5App]⟩]⟩

/-- The observed local state for the C5 witness: exactly the desired app. -/
def c5Observed : NodeState := ⟨[c5App], []⟩

/-- Witness for C5 at a concrete already-converged state. -/
theorem c5_planner_idempotent_witness :
    calculate_necessary_state_changes c5Desired c5Desired "n1" [] c5Observed =
      StateChange.Sequentially [] :=
  c5_planner_idempotent c5Desired c5Desired "n1" [] c5Observed rfl (by decide) (by decide)
    (by decide)

/-- C6: An application that is both desired locally and observed as not
running is replanned as a `Sequentially(Stop, Start)` restart; no bare
`StartApplication` with its name appears among the started containers,
no `StopApplication` with its name appears in the stop phase, the name
is not in the start set, and the combined start/restart `InParallel`
phase is part of the plan. -/
theorem c6_restart_classification (desired current : Deployment) (hostname : String)
    (current_proxies : List Proxy) (observed : NodeState) (app : Application)
    (hDesired : app ∈ desiredNodeApplications desired hostname)
    (hNotRunning : app.name ∈ planNotRunningNames observed) :
    (StateChange.Sequentially
        [StateChange.StopApplication app, StateChange.StartApplication app] ∈
      planRestartContainers desired hostname observed)
    ∧ (∀ b : Application,
        StateChange.StartApplication b ∈
          planStartContainers desired hostname observed ++
            planRestartContainers desired hostname observed → b.name ≠ app.name)
    ∧ (∀ b : Application,
        StateChange.StopApplication b ∈ planStopContainers desired hostname observed →
          b.name ≠ app.name)
    ∧ app.name ∉ planStartNames desired hostname observed
    ∧ StateChange.InParallel
        (planStartContainers desired hostname observed ++
          planRestartContainers desired hostname observed) ∈
      calculatePhases desired current hostname current_proxies observed := by
  have hMemD : app.name ∈ namesOf (desiredNodeApplications desired hostname) :=
    List.mem_map.mpr ⟨app, hDesired, rfl⟩
  have hRestartMem : StateChange.Sequentially
      [StateChange.StopApplication app, StateChange.StartApplication app] ∈
      planRestartContainers desired hostname observed := by
    rw [planRestartContainers, List.mem_map]
    refine ⟨app, ?_, rfl⟩
    rw [List.mem_filter]
    exact ⟨hDesired, List.elem_iff.mpr hNotRunning⟩
  have hNotStartName : app.name ∉ planStartNames desired hostname observed := by
    rw [planStartNames]
    intro hmem
    rw [List.mem_filter] at hmem
    have h2 := hmem.2
    have hcont : (planNotRunningNames observed).contains app.name = true :=
      List.elem_iff.mpr hNotRunning
    rw [hcont] at h2
    simp at h2
  refine ⟨hRestartMem, ?_, ?_, hNotStartName, ?_⟩
  · intro b hb hname
    rw [List.mem_append] at hb
    rcases hb with hb | hb
    · rw [planStartContainers, List.mem_map] at hb
      obtain ⟨a, ha, heq⟩ := hb
      cases heq
      have h2 := ha
      rw [List.mem_filter] at h2
      have h3 := h2.2
      rw [hname] at h3
      exact hNotStartName (List.elem_iff.mp h3)
    · rw [planRestartContainers, List.mem_map] at hb
      obtain ⟨a, _, heq⟩ := hb
      exact StateChange.noConfusion heq
  · intro b hb hname
    rw [planStopContainers, List.mem_map] at hb
    obtain ⟨a, ha, heq⟩ := hb
    cases heq
    rw [List.mem_filter] at ha
    have h2 := ha.2
    rw [hname] at h2
    have happ : app.name ∈ planStopNames desired hostname observed := List.elem_iff.mp h2
    rw [planStopNames, List.mem_filter] at happ
    have h3 := happ.2
    have hcont : (namesOf (desiredNodeApplications desired hostname)).contains app.name =
        true := List.elem_iff.mpr hMemD
    rw [hcont] at h3
    simp at h3
  · have hne : (planStartContainers desired hostname observed ++
        planRestartContainers desired hostname observed).isEmpty = false := by
      rw [List.isEmpty_eq_false_iff_exists_mem]
      exact ⟨_, List.mem_append_right _ hRestartMem⟩
    rw [calculatePhases]
    simp only [hne, Bool.false_eq_true, if_false]
    exact List.mem_append_right _ (List.mem_singleton.mpr rfl)

/-- The stopped-but-wanted application of spec scenario S6. -/
def c6App : Application := { name := "mysql" }

/-- The deployment for the C6 witness. -/
def c6Desired : Deployment := ⟨[⟨"n1", [c6App]⟩]⟩

/-- The observed state for the C6 witness: `mysql` is not running. -/
def c6Observed : NodeState := ⟨[], [c6App]⟩

/-- Witness for C6 at spec scenario S6. -/
theorem c6_restart_classification_witness :
    (StateChange.Sequentially
        [StateChange.StopApplication c6App, StateChange.StartApplication c6App] ∈
      planRestartContainers c6Desired "n1" c6Observed)
    ∧ (∀ b : Application,
        StateChange.StartApplication b ∈
          planStartContainers c6Desired "n1" c6Observed ++
            planRestartContainers c6Desired "n1" c6Observed → b.name ≠ c6App.name)
    ∧ (∀ b : Application,
        StateChange.StopApplication b ∈ planStopContainers c6Desired "n1" c6Observed →
          b.name ≠ c6App.name)
    ∧ c6App.name ∉ planStartNames c6Desired "n1" c6Observed
    ∧ StateChange.InParallel
        (planStartContainers c6Desired "n1" c6Observed ++
          planRestartContainers c6Desired "n1" c6Observed) ∈
      calculatePhases c6Desired c6Desired "n1" [] c6Observed :=
  c6_restart_classification c6Desired c6Desired "n1" [] c6Observed c6App
    (by decide) (by decide)

/-- The property C4 asserts of `SetProxies.run` at a given input:
proxies present both in `self.ports` (desired) and in the current
enumeration are neither deleted nor re-created. -/
def setProxiesUntouchedAt (ports enumerated : List Proxy) : Prop :=
  ∀ p ∈ ports, p ∈ enumerated →
    ProxyOp.delete p ∉ SetProxies_run ports enumerated ∧
    ProxyOp.create p.ip p.port ∉ SetProxies_run ports enumerated

/-- A proxy that is both desired and already installed. -/
def c4Proxy : Proxy := { ip := "192.0.2.101", port := 3306, «namespace» := "default" }

/-- C4 counterexample: with the installed set and the desired set both
equal to `{c4Proxy}`, `SetProxies.run` still deletes (and re-creates)
`c4Proxy`, so the claimed symmetric-difference behaviour fails. -/
theorem c4_counterexample : ¬ setProxiesUntouchedAt [c4Proxy] [c4Proxy] := by
  unfold setProxiesUntouchedAt
  decide

/-- C4 (amended): `SetProxies.run` issues a `delete_proxy` for exactly
the proxies in the current enumeration and a `create_proxy_to` for
exactly the proxies in `self.ports` — including, in both cases, the
proxies present in both sets, which are therefore deleted and
re-created rather than left untouched. -/
theorem c4_delete_all_create_all (ports enumerated : List Proxy) (p : Proxy) :
    (ProxyOp.delete p ∈ SetProxies_run ports enumerated ↔ p ∈ enumerated)
    ∧ (ProxyOp.create p.ip p.port ∈ SetProxies_run ports enumerated ↔
        ∃ q ∈ ports, q.ip = p.ip ∧ q.port = p.port) := by
  constructor <;> simp [SetProxies_run]

/-! ### The marshaller (`marshal_configuration` in `flocker/node/_config.py`) -/

/-- Lexicographic comparison of characters lists, modelling Python string
comparison for the sort keys of the marshaller. -/
def charsLe : List Char → List Char → Bool
  | [], _ => true
  | _ :: _, [] => false
  | x :: xs, y :: ys => if x = y then charsLe xs ys else decide (x < y)

/-- `sorted()` key order for the `{internal, external}` port dicts:
Python 2 compares the dicts by sorted key, i.e. by `(external, internal)`. -/
def portKeyLe (p q : Port) : Bool :=
  Nat.blt p.external_port q.external_port ||
    (p.external_port == q.external_port && Nat.ble p.internal_port q.internal_port)

/-- `sorted()` key order for the `{alias, local_port, remote_port}` link
dicts: by `(alias, local_port, remote_port)`. -/
def linkKeyLe (x y : Link) : Bool :=
  (charsLe x.«alias».toList y.«alias».toList && !(x.«alias» == y.«alias»)) ||
    (x.«alias» == y.«alias» &&
      (Nat.blt x.local_port y.local_port ||
        (x.local_port == y.local_port && Nat.ble x.remote_port y.remote_port)))

/-- `ApplicationMarshaller.convert_ports`: one `{internal, external}`
entry per port, sorted. -/
def convert_ports (application : Application) : List Port :=
  application.ports.mergeSort portKeyLe

/-- `ApplicationMarshaller.convert_links`: one `{local_port, remote_port,
alias}` entry per link, sorted. -/
def convert_links (application : Application) : List Link :=
  application.links.mergeSort linkKeyLe

/-- The attributes read by `marshal_configuration(state)`: `running`,
`not_running` and `used_ports`.  (The function's docstring declares the
parameter to be a `NodeState`, but the `NodeState` defined in
`flocker/node/_deploy.py` has no `used_ports` attribute, so the state it
actually requires is embedded as its own structure.) -/
structure MarshalState where
  running : List Application
  not_running : List Application
  used_ports : List Nat
deriving DecidableEq, Repr

/-- One entry of the `applications` mapping built by
`marshal_configuration`: the unknown-image sentinel, the converted
ports, the converted links when the application has links, and a
`{mountpoint: None}` marker when it has a volume. -/
structure AppRepr where
  image : String
  ports : List Port
  links : Option (List Link)
  volume : Option (Option String)
deriving DecidableEq, Repr

/-- The mapping returned by `marshal_configuration`: `version`,
`applications` and `used_ports`. -/
structure MarshalledConfiguration where
  version : Nat
  applications : List (String × AppRepr)
  used_ports : List Nat
deriving DecidableEq, Repr

/-- `marshal_configuration` from `flocker/node/_config.py`. -/
def marshal_configuration (state : MarshalState) : MarshalledConfiguration :=
  { version := 1
    applications := (state.running ++ state.not_running).map (fun application =>
      (application.name,
        { image := "unknown"
          ports := convert_ports application
          links := if application.links.isEmpty then none
                   else some (convert_links application)
          volume := if application.volume.isSome then some none else none }))
    used_ports := state.used_ports.insertionSort (· ≤ ·) }

/-- C7 (the marshaller half): for every state carrying the attributes
`marshal_configuration` reads, the result has `version = 1` and a
`used_ports` list that is sorted ascending and has exactly the state's
used ports as members.  (The observation half of the claim fails: see
the `NodeState` structure above, which has no `used_ports` field.) -/
theorem c7_marshal_shape (state : MarshalState) :
    (marshal_configuration state).version = 1
    ∧ List.Sorted (· ≤ ·) (marshal_configuration state).used_ports
    ∧ ∀ n : Nat, n ∈ (marshal_configuration state).used_ports ↔ n ∈ state.used_ports := by
  refine ⟨rfl, ?_, ?_⟩
  · exact List.sorted_insertionSort (· ≤ ·) state.used_ports
  · intro n
    exact List.mem_insertionSort (· ≤ ·)

/-! ### The compose-style parser (`FigConfiguration` in
`flocker/node/_config.py`) -/

/-- Structural split of a character list on a separator, modelling
Python `str.split(sep)` (kernel-computable, unlike `String.splitOn`). -/
def splitOnChar (sep : Char) : List Char → List (List Char)
  | [] => [[]]
  | c :: rest =>
    let r := splitOnChar sep rest
    if c = sep then [] :: r
    else
      match r with
      | h :: t => (c :: h) :: t
      | [] => [[c]]

/-- Python `s.split(sep)` for strings. -/
def splitString (sep : Char) (s : String) : List String :=
  (splitOnChar sep s.toList).map (fun l => ⟨l⟩)

/-- Python `sep.join(parts)` for a colon separator. -/
def joinColon : List String → String
  | [] => ""
  | [x] => x
  | x :: xs => x ++ ":" ++ joinColon xs

/-- A YAML-shaped Python value, as seen by the configuration parser. -/
inductive PyVal where
  | str (s : String)
  | int (n : Int)
  | list (xs : List PyVal)
  | dict (xs : List (String × PyVal))
deriving Repr

/-- The Python exceptions the parser can raise: `ConfigurationError`,
`ValueError` (caught by `_parse` and re-raised as a
`ConfigurationError`), and the built-in `KeyError` / `IndexError` /
`AttributeError` escapes. -/
inductive PyErr where
  | configurationError (message : String)
  | valueError (message : String)
  | keyError
  | indexError
  | attributeError
deriving DecidableEq, Repr

/-- First-match lookup in a Python dict modelled as an association list
with unique keys. -/
def pyLookup (d : List (String × PyVal)) (k : String) : Option PyVal :=
  (d.find? (fun kv => kv.1 == k)).map (·.2)

/-- `self._unsupported_keys` of `FigConfiguration`. -/
def figUnsupportedKeys : List String :=
  ["working_dir", "entrypoint", "user", "hostname", "domainname", "mem_limit",
   "privileged", "dns", "net", "volumes_from", "expose", "command"]

/-- `self._allowed_keys` of `FigConfiguration`. -/
def figAllowedKeys : List String :=
  ["image", "environment", "ports", "links", "volumes"]

/-- `FigConfiguration._count_identifier_keys`: how many of
`{image, build}` appear among the definition's keys. -/
def _count_identifier_keys (config : List (String × PyVal)) : Nat :=
  (["image", "build"].filter (fun k => (config.map (·.1)).contains k)).length

/-- `FigConfiguration._validate_application_keys`. -/
def _validate_application_keys (config : PyVal) :
    Except PyErr (List (String × PyVal)) :=
  match config with
  | .dict d =>
    if _count_identifier_keys d == 0 then
      .error (.valueError
        "Application configuration must contain either an 'image' or 'build' key.")
    else if (d.map (·.1)).contains "build" then
      .error (.valueError "'build' is not supported yet; please specify 'image'.")
    else
      let present := d.map (·.1)
      let unsupported := figUnsupportedKeys.filter (present.contains ·)
      let invalid := present.filter (fun k => !figAllowedKeys.contains k)
      if !unsupported.isEmpty then .error (.valueError "Unsupported fig keys found")
      else if !invalid.isEmpty then .error (.valueError "Unrecognised keys")
      else .ok d
  | _ => .error (.configurationError "Application configuration must be dictionary")

/-- Modelled from the spec: `DockerImage.from_string` of
`flocker/node/_model.py` is not under `src/`; per spec §3 an image
reference is parsed from a single `repo:tag` form by colon split on the
final component, and a missing tag is an error. -/
def DockerImage.from_string (s : String) : Except PyErr DockerImage :=
  let parts := splitString ':' s
  match parts.getLast? with
  | none => .error (.valueError "invalid image name")
  | some tag =>
    if parts.length < 2 then .error (.valueError "image name missing tag")
    else .ok ⟨joinColon parts.dropLast, tag⟩

/-- `FigConfiguration._parse_app_environment`. -/
def _parse_app_environment (environment : PyVal) :
    Except PyErr (List (String × String)) :=
  match environment with
  | .dict d =>
    d.mapM (fun kv =>
      match kv.2 with
      | .str s => .ok (kv.1, s)
      | _ => .error (.configurationError "'environment' value must be a string"))
  | _ => .error (.configurationError "'environment' must be a dictionary")

/-- `FigConfiguration._parse_app_volumes`: items must be strings, at
most one volume, and `volumes[0]` raises `IndexError` on an empty list. -/
def _parse_app_volumes (application : String) (volumes : PyVal) :
    Except PyErr AttachedVolume :=
  match volumes with
  | .list vs =>
    if vs.any (fun v => match v with | .str _ => false | _ => true) then
      .error (.configurationError "'volumes' values must be string")
    else if vs.length > 1 then
      .error (.configurationError "Only one volume per application is supported at this time.")
    else
      match vs.head? with
      | some (.str s) => .ok ⟨application, some s⟩
      | some _ => .error (.configurationError "'volumes' values must be string")
      | none => .error .indexError
  | _ => .error (.configurationError "'volumes' must be a list")

/-- Python `int()` on a `String`, as for the iptables model. -/
def parseDecNatStr (s : String) : Option Nat := parseDecNat s.toList

/-- `FigConfiguration._parse_app_ports`: each entry is a
`"host:container"` string; a non-string entry raises `AttributeError`
(no `split` method). -/
def _parse_app_ports (ports : PyVal) : Except PyErr (List Port) :=
  match ports with
  | .list ps =>
    ps.mapM (fun p =>
      match p with
      | .str s =>
        match splitString ':' s with
        | [host, container] =>
          match parseDecNatStr host, parseDecNatStr container with
          | some h, some c => .ok ⟨c, h⟩
          | _, _ => .error (.configurationError
              "'ports' value could not be parsed in to integer values")
        | _ => .error (.configurationError
            "'ports' must be list of string values in the form of 'host_port:container_port'")
      | _ => .error .attributeError)
  | _ => .error (.configurationError "'ports' must be a list")

/-- One entry of `self._application_links`: the parsed target and alias
of one `links` list item. -/
structure LinkDef where
  target_application : String
  «alias» : String
deriving DecidableEq, Repr

/-- `FigConfiguration._parse_app_links`: each entry is a
`"target[:alias]"` string whose target must be a declared application
name (an entry with two or more colons keeps the target as alias, as in
the source). -/
def _parse_app_links (links : PyVal) (application_names : List String) :
    Except PyErr (List LinkDef) :=
  match links with
  | .list ls =>
    ls.mapM (fun l =>
      match l with
      | .str s =>
        let parsed_link := splitString ':' s
        let pair : String × String :=
          match parsed_link with
          | [local_link, aliased_link] => (local_link, aliased_link)
          | local_link :: _ => (local_link, local_link)
          | [] => ("", "")
        if application_names.contains pair.1 then
          .ok ⟨pair.1, pair.2⟩
        else
          .error (.configurationError
            "'links' value could not be mapped to any application")
      | _ => .error (.configurationError
          "'links' must be a list of application names with optional :alias."))
  | _ => .error (.configurationError "'links' must be a list")

/-- The body of the per-application `try` block of
`FigConfiguration._parse`: validate the keys, parse the image and the
optional `environment` / `volumes` / `ports` / `links` sections, and
build the `Application` with an empty link set (links are resolved in a
second pass). -/
def figParseApp (application_names : List String) (name : String) (config : PyVal) :
    Except PyErr (Application × List LinkDef) := do
  let d ← _validate_application_keys config
  let imageVal ← match pyLookup d "image" with
    | some v => Except.ok v
    | none => Except.error PyErr.keyError
  let image_name ← match imageVal with
    | .str s => Except.ok s
    | _ => Except.error (PyErr.configurationError "'image' must be a string")
  let image ← DockerImage.from_string image_name
  let environment ← match pyLookup d "environment" with
    | some v => Except.map some (_parse_app_environment v)
    | none => Except.ok none
  let volume ← match pyLookup d "volumes" with
    | some v => Except.map some (_parse_app_volumes name v)
    | none => Except.ok none
  let ports ← match pyLookup d "ports" with
    | some v => _parse_app_ports v
    | none => Except.ok []
  let linkDefs ← match pyLookup d "links" with
    | some v => _parse_app_links v application_names
    | none => Except.ok []
  .ok ({ name := name, image := some image, ports := ports, links := [],
         volume := volume, environment := environment }, linkDefs)

/-- The `except ValueError` handler of `FigConfiguration._parse`:
a `ValueError` is re-raised as a `ConfigurationError` naming the
application. -/
def catchValueError (application : String) :
    Except PyErr (Application × List LinkDef) →
      Except PyErr (Application × List LinkDef)
  | .error (.valueError m) =>
      .error (.configurationError
        ("Application '" ++ application ++ "' has a config error. " ++ m))
  | r => r

/-- The first pass of `FigConfiguration._parse`: lift every definition
into an `Application` (with empty links) and record the link side table,
in configuration order. -/
def figFirstPassAux (application_names : List String) :
    List (String × PyVal) →
      Except PyErr (List (String × Application) × List (String × List LinkDef))
  | [] => .ok ([], [])
  | (name, config) :: rest => do
    let (app, linkDefs) ← catchValueError name (figParseApp application_names name config)
    let (apps, table) ← figFirstPassAux application_names rest
    .ok ((name, app) :: apps, (name, linkDefs) :: table)

/-- The applications dict and link table after the first pass of
`FigConfiguration._parse`. -/
def figFirstPass (cfg : List (String × PyVal)) :
    Except PyErr (List (String × Application) × List (String × List LinkDef)) :=
  figFirstPassAux (cfg.map (·.1)) cfg

/-- First-match application lookup (`self._applications[name]`). -/
def lookupApp (apps : List (String × Application)) (k : String) : Option Application :=
  (apps.find? (fun kv => kv.1 == k)).map (·.2)

/-- The `app_links` accumulation inside `_link_applications`: one `Link`
per port of the link's target application, reading the target from the
current applications dict (`KeyError` if absent). -/
def buildLinks (apps : List (String × Application)) (defs : List LinkDef) :
    Except PyErr (List Link) :=
  defs.foldlM (fun acc d =>
    match lookupApp apps d.target_application with
    | none => .error .keyError
    | some target =>
      .ok (acc ++ target.ports.map (fun p =>
        Link.mk p.internal_port p.external_port d.«alias»))) []

/-- The attribute assignment
`self._applications[application_name].links = frozenset(app_links)`:
the `Application` stored under `name` is replaced by one whose `links`
field holds the new set. -/
def setLinks (apps : List (String × Application)) (name : String) (links : List Link) :
    List (String × Application) :=
  apps.map (fun kv => if kv.1 == name then (kv.1, { kv.2 with links := links }) else kv)

/-- `FigConfiguration._link_applications`: walk the link side table and
update each stored application's `links` in place. -/
def link_applications :
    List (String × List LinkDef) → List (String × Application) →
      Except PyErr (List (String × Application))
  | [], apps => .ok apps
  | (name, defs) :: rest, apps => do
    let links ← buildLinks apps defs
    link_applications rest (setLinks apps name links)

/-- `FigConfiguration._parse` / `applications()`: the first pass
followed by `_link_applications`. -/
def figParse (cfg : List (String × PyVal)) :
    Except PyErr (List (String × Application)) :=
  match figFirstPass cfg with
  | .error e => .error e
  | .ok (apps, table) => link_applications table apps

/-- The applications exactly as constructed by the first pass (before
`_link_applications` runs). -/
def figConstructed (cfg : List (String × PyVal)) :
    Except PyErr (List (String × Application)) :=
  (figFirstPass cfg).map (·.1)

deriving instance DecidableEq for Except

/-- The compose-style configuration of the C9 counterexample: `web`
links to `db`, and `db` exposes port `8080:80`. -/
def figCfgC9 : List (String × PyVal) :=
  [("web", .dict [("image", .str "example/web:latest"), ("links", .list [.str "db"])]),
   ("db", .dict [("image", .str "example/db:latest"), ("ports", .list [.str "8080:80"])])]

/-- The property C9 asserts at a given configuration: every field of
every `Application` (links included) already has its final value at the
moment the `Application` is constructed, i.e. the second pass changes
nothing. -/
def figLinksFixedAt (cfg : List (String × PyVal)) : Prop :=
  figParse cfg = figConstructed cfg

/-- C9 counterexample: on `figCfgC9` the application stored under
`web` is constructed with an empty link set and later has its `links`
attribute overwritten by `_link_applications`, so the parsed value is
not fixed at construction time. -/
theorem c9_counterexample : ¬ figLinksFixedAt figCfgC9 := by
  unfold figLinksFixedAt
  decide

/-- Forget the `links` field of an application. -/
def eraseLinks (a : Application) : Application := { a with links := [] }

lemma setLinks_eraseLinks (apps : List (String × Application)) (name : String)
    (links : List Link) :
    (setLinks apps name links).map (fun kv => (kv.1, eraseLinks kv.2)) =
      apps.map (fun kv => (kv.1, eraseLinks kv.2)) := by
  unfold setLinks
  rw [List.map_map]
  apply List.map_congr_left
  intro kv _
  by_cases h : kv.1 = name <;> simp [h, eraseLinks]

lemma link_applications_eraseLinks (table : List (String × List LinkDef))
    (apps apps' : List (String × Application))
    (h : link_applications table apps = .ok apps') :
    apps'.map (fun kv => (kv.1, eraseLinks kv.2)) =
      apps.map (fun kv => (kv.1, eraseLinks kv.2)) := by
  induction table generalizing apps with
  | nil =>
    unfold link_applications at h
    cases h
    rfl
  | cons entry rest ih =>
    obtain ⟨name, defs⟩ := entry
    unfold link_applications at h
    cases hb : buildLinks apps defs with
    | error e => rw [hb] at h; exact Except.noConfusion h
    | ok links =>
      rw [hb] at h
      have h2 : link_applications rest (setLinks apps name links) = .ok apps' := h
      rw [ih _ h2, setLinks_eraseLinks]

/-- C9 (amended): the compose-style parser builds each `Application` in
two passes, and the second pass (`_link_applications`) overwrites only
the stored application's `links` attribute: up to the `links` field, the
fully parsed applications are exactly the ones constructed by the first
pass (same names, same order, all other fields unchanged). -/
theorem c9_two_pass_links_only (cfg : List (String × PyVal))
    (apps₀ apps : List (String × Application))
    (h₀ : figConstructed cfg = .ok apps₀) (h : figParse cfg = .ok apps) :
    apps.map (fun kv => (kv.1, eraseLinks kv.2)) =
      apps₀.map (fun kv => (kv.1, eraseLinks kv.2)) := by
  unfold figConstructed at h₀
  unfold figParse at h
  cases hfp : figFirstPass cfg with
  | error e =>
    rw [hfp] at h₀
    exact Except.noConfusion h₀
  | ok pair =>
    obtain ⟨apps₁, table⟩ := pair
    rw [hfp] at h₀ h
    simp only [Except.map] at h₀
    cases h₀
    exact link_applications_eraseLinks table _ apps h

/-- `web` as constructed by the first pass (no links yet). -/
def c9WebConstructed : Application :=
  { name := "web", image := some ⟨"example/web", "latest"⟩ }
/-- `db` as parsed (never linked). -/
def c9Db : Application :=
  { name := "db", image := some ⟨"example/db", "latest"⟩, ports := [⟨80, 8080⟩] }
/-- `web` after `_link_applications` overwrites its links. -/
def c9WebLinked : Application :=
  { c9WebConstructed with links := [⟨80, 8080, "db"⟩] }
/-- The applications dict after the first pass on `figCfgC9`. -/
def c9AppsConstructed : List (String × Application) :=
  [("web", c9WebConstructed), ("db", c9Db)]
/-- The applications dict after the second pass on `figCfgC9`. -/
def c9AppsFinal : List (String × Application) :=
  [("web", c9WebLinked), ("db", c9Db)]

/-- Witness for the amended C9 at the counterexample configuration. -/
theorem c9_two_pass_links_only_witness :
    c9AppsFinal.map (fun kv => (kv.1, eraseLinks kv.2)) =
      c9AppsConstructed.map (fun kv => (kv.1, eraseLinks kv.2)) :=
  c9_two_pass_links_only figCfgC9 c9AppsConstructed c9AppsFinal (by decide) (by decide)
